import Mathlib

/-!
Verification of the cart/inventory and product-filter core of a Node/Express
e-commerce backend.  The definitions below are a shallow embedding of the
JavaScript source:

* helpers/product.helper.js : query-parameter parsing, pagination validation,
  price-range filter building, comma-separated facet lists;
* controllers/cart.controller.js : the cart consistency engine (add, set
  quantity, increment, decrement, delete single/batch/clear, save-for-later,
  move-to-cart) together with the denormalized User.shopping_cart mirror;
* controllers/mylist.controller.js : the wishlist snapshot sync pass.

JavaScript numbers that hold prices/ratings are modelled as rationals, object
ids as naturals, the Mongo collections as lists.  The distinguished JavaScript
values null and NaN that flow through parseFloat results are modelled
explicitly by the JNum type, since the source relies on their truthiness and
comparison behaviour.
-/

namespace ECommerce

/-! ## JavaScript primitive modelling -/

/-- Whitespace characters skipped by the JavaScript number parsers and trim. -/
def isJsSpace (c : Char) : Bool :=
  c = ' ' || c = '\t' || c = '\n' || c = '\r'

/-- Decimal digit test. -/
def isDecDigit (c : Char) : Bool :=
  '0' ≤ c && c ≤ '9'

/-- Hexadecimal digit test (parseInt auto-detects a 0x prefix). -/
def isHexDigit (c : Char) : Bool :=
  isDecDigit c || ('a' ≤ c && c ≤ 'f') || ('A' ≤ c && c ≤ 'F')

/-- Value of a decimal digit. -/
def decDigitVal (c : Char) : Nat := c.toNat - '0'.toNat

/-- Value of a hexadecimal digit. -/
def hexDigitVal (c : Char) : Nat :=
  if isDecDigit c then decDigitVal c
  else if 'a' ≤ c && c ≤ 'f' then c.toNat - 'a'.toNat + 10
  else c.toNat - 'A'.toNat + 10

/-- Accumulate a digit string into a natural number. -/
def digitsVal (base : Nat) (dval : Char → Nat) (ds : List Char) : Nat :=
  ds.foldl (fun acc c => acc * base + dval c) 0

/-- JavaScript parseInt on a character list: skip leading whitespace, optional
sign, then either a 0x-prefixed hexadecimal or a decimal digit run; none
models the NaN result. -/
def jsParseIntCore (cs : List Char) : Option Int :=
  let cs1 := cs.dropWhile isJsSpace
  let sign : Int := match cs1 with
    | '-' :: _ => -1
    | _ => 1
  let cs2 : List Char := match cs1 with
    | '-' :: rest => rest
    | '+' :: rest => rest
    | _ => cs1
  match cs2 with
  | '0' :: x :: rest =>
    if x = 'x' || x = 'X' then
      let ds := rest.takeWhile isHexDigit
      if ds.isEmpty then none
      else some (sign * (digitsVal 16 hexDigitVal ds : Nat))
    else
      some (sign * (digitsVal 10 decDigitVal (('0' :: x :: rest).takeWhile isDecDigit) : Nat))
  | _ =>
    let ds := cs2.takeWhile isDecDigit
    if ds.isEmpty then none else some (sign * (digitsVal 10 decDigitVal ds : Nat))

/-- JavaScript parseInt on a string. -/
def jsParseInt (s : String) : Option Int := jsParseIntCore s.data

/-- parseInt applied to a possibly-absent query parameter (parseInt of
undefined is NaN). -/
def jsParseIntOpt : Option String → Option Int
  | some s => jsParseInt s
  | none => none

/-- A JavaScript number-or-null value as it flows out of
`x ? parseFloat(x) : null`: null, NaN, or an actual number. -/
inductive JNum where
  | null
  | nan
  | num (q : ℚ)
deriving DecidableEq

/-- JavaScript parseFloat on a character list: skip whitespace, optional sign,
integer digits and an optional fraction part; NaN when no digit was read. -/
def jsParseFloatCore (cs : List Char) : JNum :=
  let cs1 := cs.dropWhile isJsSpace
  let sign : ℚ := match cs1 with
    | '-' :: _ => -1
    | _ => 1
  let cs2 : List Char := match cs1 with
    | '-' :: rest => rest
    | '+' :: rest => rest
    | _ => cs1
  let intDigits := cs2.takeWhile isDecDigit
  let rest := cs2.dropWhile isDecDigit
  let fracDigits : List Char := match rest with
    | '.' :: r => r.takeWhile isDecDigit
    | _ => []
  if intDigits.isEmpty && fracDigits.isEmpty then .nan
  else
    let ip : ℚ := (digitsVal 10 decDigitVal intDigits : Nat)
    let fp : ℚ := (digitsVal 10 decDigitVal fracDigits : Nat) / ((10 : ℚ) ^ fracDigits.length)
    .num (sign * (ip + fp))

/-- JavaScript parseFloat on a string. -/
def jsParseFloat (s : String) : JNum := jsParseFloatCore s.data

/-- Truthiness of a possibly-absent string query parameter: present and
non-empty. -/
def truthyStr : Option String → Bool
  | some s => s ≠ ""
  | none => false

namespace JNum

/-- JavaScript truthiness of a number-or-null: null, NaN and 0 are falsy. -/
def truthy : JNum → Bool
  | .null => false
  | .nan => false
  | .num q => q ≠ 0

/-- Numeric coercion used by JavaScript relational operators (null coerces
to 0; the NaN case is never consulted because comparisons with NaN are
false). -/
def toQ : JNum → ℚ
  | .null => 0
  | .nan => 0
  | .num q => q

/-- JavaScript strict greater-than between number-or-null values: any
comparison involving NaN is false, null coerces to 0. -/
def jsGt (a b : JNum) : Bool :=
  match a, b with
  | .nan, _ => false
  | _, .nan => false
  | a, b => b.toQ < a.toQ

/-- JavaScript x >= 0 on a number-or-null value: true for null (null coerces
to 0), false for NaN. -/
def jsGe0 : JNum → Bool
  | .null => true
  | .nan => false
  | .num q => 0 ≤ q

end JNum

/-! ## helpers/product.helper.js : pagination validation -/

/-- Return value of validatePaginationParams: the parsed page and limit
together with the accumulated validation errors. -/
structure PaginationResult where
  pageNum : Int
  limitNum : Int
  errors : List String
deriving DecidableEq

/-- validatePaginationParams from helpers/product.helper.js:
parseInt with a falsy-default (so NaN and 0 fall back to 1 resp. 10),
range errors recorded against the unclamped values, and the returned
numbers clamped by Math.max/Math.min. -/
def validatePaginationParams (page limit : Option String) : PaginationResult :=
  let pageNum : Int := match jsParseIntOpt page with
    | some n => if n = 0 then 1 else n
    | none => 1
  let limitNum : Int := match jsParseIntOpt limit with
    | some n => if n = 0 then 10 else n
    | none => 10
  let errors : List String :=
    (if pageNum < 1 then ["Page must be a positive integer"] else []) ++
    (if limitNum < 1 ∨ 100 < limitNum then ["Limit must be between 1 and 100"] else [])
  { pageNum := max 1 pageNum, limitNum := max 1 (min 100 limitNum), errors := errors }

/-- Outcome of the pagination gate at the top of getProductsByField. -/
inductive GateResult where
  | badRequest (messages : List String)
  | proceed (pageNum limitNum : Int)
deriving DecidableEq

/-- The pagination front of getProductsByField from helpers/product.helper.js:
a non-empty error list from validatePaginationParams yields an immediate
400 response, otherwise the handler proceeds with the validated numbers. -/
def paginationGate (page limit : Option String) : GateResult :=
  let v := validatePaginationParams page limit
  if v.errors ≠ [] then .badRequest v.errors else .proceed v.pageNum v.limitNum

/-! ## helpers/product.helper.js : price-range filter -/

/-- The price constraint placed into the Mongo filter: optional $gte and
$lte bounds (the source can store a null bound, hence JNum). -/
structure PriceFilter where
  gte : Option JNum
  lte : Option JNum
deriving DecidableEq

/-- The price-range portion of buildProductFilter from
helpers/product.helper.js: entered when either raw parameter is truthy;
each side is parseFloat of a truthy parameter or null; when both parsed
values are truthy and min > max the bounds are swapped, otherwise each
bound is set whenever the JavaScript test value >= 0 passes. -/
def buildPriceFilter (minPrice maxPrice : Option String) : Option PriceFilter :=
  if truthyStr minPrice || truthyStr maxPrice then
    let minPriceNum : JNum := match minPrice with
      | some s => if s ≠ "" then jsParseFloat s else .null
      | none => .null
    let maxPriceNum : JNum := match maxPrice with
      | some s => if s ≠ "" then jsParseFloat s else .null
      | none => .null
    if minPriceNum.truthy && maxPriceNum.truthy && minPriceNum.jsGt maxPriceNum then
      some { gte := some maxPriceNum, lte := some minPriceNum }
    else
      some { gte := if minPriceNum.jsGe0 then some minPriceNum else none,
             lte := if maxPriceNum.jsGe0 then some maxPriceNum else none }
  else none

/-! ## helpers/product.helper.js : comma-separated array facets -/

/-- Split a character list at commas, keeping empty groups (JavaScript
String.split). -/
def splitComma : List Char → List (List Char)
  | [] => [[]]
  | c :: rest =>
    if c = ',' then [] :: splitComma rest
    else
      match splitComma rest with
      | [] => [[c]]
      | g :: gs => (c :: g) :: gs

/-- JavaScript String.trim on a character list (whitespace from both ends). -/
def trimChars (l : List Char) : List Char :=
  (l.dropWhile isJsSpace).rdropWhile isJsSpace

/-- The array-facet treatment of buildProductFilter
(productRam/size/productWeight): split on commas, trim every entry, drop
falsy (empty) entries. -/
def parseFacetValues (s : String) : List (List Char) :=
  ((splitComma s.data).map trimChars).filter (fun e => ¬ e.isEmpty)

/-! ## Data model (models/product, models/cartproduct, models/user) -/

/-- A Product document, restricted to the fields the cart and wishlist
logic reads.  Prices, rating and discount are JavaScript numbers (modelled
as rationals); the schema defaults oldPrice, rating and discount to 0 and
forbids negative stock.  images keeps the url of each image entry. -/
structure Product where
  name : String
  price : ℚ
  oldPrice : ℚ
  countInStock : Nat
  discount : ℚ
  rating : ℚ
  brand : String
  images : List String
deriving DecidableEq

/-- Status of a cart line item. -/
inductive CStatus where
  | active
  | savedForLater
  | outOfStock
deriving DecidableEq

/-- A CartProduct document: the Mongo _id, the owning user, the referenced
product, the chosen quantity, the stamped price, the opaque variant and
the status. -/
structure CartItem where
  id : Nat
  userId : Nat
  productId : Nat
  quantity : Nat
  priceAtAdd : ℚ
  variant : Option String
  status : CStatus
deriving DecidableEq

/-- The database state the cart controller operates on: the Product
collection, the CartProduct collection, each user together with its
denormalized shopping_cart array, and the id counter for new cart items. -/
structure CartSt where
  products : List (Nat × Product)
  items : List CartItem
  users : List (Nat × List Nat)
  nextId : Nat
deriving DecidableEq

namespace CartSt

/-- ProductModel.findById. -/
def findProduct (pid : Nat) (s : CartSt) : Option Product :=
  (s.products.find? (fun e => e.1 == pid)).map (fun e => e.2)

/-- CartProductModel.findOne on _id and userId. -/
def findCartItem (u iid : Nat) (s : CartSt) : Option CartItem :=
  s.items.find? (fun it => it.id == iid && it.userId == u)

/-- CartProductModel.findOne on userId and productId. -/
def findCartByProduct (u pid : Nat) (s : CartSt) : Option CartItem :=
  s.items.find? (fun it => it.userId == u && it.productId == pid)

/-- document.save: write back a cart item by its _id. -/
def saveItem (it : CartItem) (s : CartSt) : CartSt :=
  { s with items := s.items.map (fun x => if x.id == it.id then it else x) }

/-- UserModel.findByIdAndUpdate with an addToSet of one product id on
shopping_cart (a no-op on an absent user). -/
def addToSet (u pid : Nat) (s : CartSt) : CartSt :=
  { s with users := s.users.map (fun e =>
      if e.1 == u then (e.1, if pid ∈ e.2 then e.2 else e.2 ++ [pid]) else e) }

/-- UserModel.findByIdAndUpdate with a pull of one product id from
shopping_cart. -/
def pullFromSet (u pid : Nat) (s : CartSt) : CartSt :=
  { s with users := s.users.map (fun e =>
      if e.1 == u then (e.1, e.2.filter (fun x => x ≠ pid)) else e) }

/-- UserModel.findByIdAndUpdate with a pull of every listed product id from
shopping_cart. -/
def pullManyFromSet (u : Nat) (pids : List Nat) (s : CartSt) : CartSt :=
  { s with users := s.users.map (fun e =>
      if e.1 == u then (e.1, e.2.filter (fun x => x ∉ pids)) else e) }

/-- UserModel.findByIdAndUpdate setting shopping_cart to the empty array. -/
def emptySet (u : Nat) (s : CartSt) : CartSt :=
  { s with users := s.users.map (fun e => if e.1 == u then (e.1, []) else e) }

end CartSt

/-! ## controllers/cart.controller.js : the nine operations -/

/-- Responses of createCartItem (add to cart), one constructor per distinct
response of the source handler. -/
inductive AddResult where
  /-- 400, quantity must be an integer between 1 and 100. -/
  | invalidQuantity
  /-- 404, product not found. -/
  | productNotFound
  /-- 400, only availableStock items available in stock. -/
  | insufficientStock (availableStock : Nat)
  /-- 400, product is out of stock. -/
  | outOfStock
  /-- 400, total quantity cannot exceed 100. -/
  | totalExceedsLimit (currentQuantity : Nat)
  /-- 400, only availableStock items available, currentQuantity already in cart. -/
  | totalExceedsStock (availableStock currentQuantity : Nat)
  /-- 200, existing line item merged by summing quantities. -/
  | merged (item : CartItem)
  /-- 201, new line item created. -/
  | created (item : CartItem)
deriving DecidableEq

/-- createCartItem from controllers/cart.controller.js.  The raw quantity is
the already-coerced JavaScript number (an integer here; the source rejects
non-integers), defaulted to 1 upstream by the falsy-default.  Validation,
product lookup, the two stock gates, the merge-or-create split, and the
addToSet mirror write on the create path; every rejection aborts the
transaction and leaves the state unchanged. -/
def createCartItem (u pid : Nat) (q : Int) (variant : Option String)
    (s : CartSt) : AddResult × CartSt :=
  if ¬ (1 ≤ q ∧ q ≤ 100) then (.invalidQuantity, s)
  else
    match s.findProduct pid with
    | none => (.productNotFound, s)
    | some product =>
      let qn := q.toNat
      if product.countInStock < qn then (.insufficientStock product.countInStock, s)
      else if product.countInStock = 0 then (.outOfStock, s)
      else
        match s.findCartByProduct u pid with
        | some existing =>
          let newQuantity := existing.quantity + qn
          if 100 < newQuantity then (.totalExceedsLimit existing.quantity, s)
          else if product.countInStock < newQuantity then
            (.totalExceedsStock product.countInStock existing.quantity, s)
          else
            let it := { existing with
                        quantity := newQuantity
                        priceAtAdd := product.price
                        variant := variant
                        status := CStatus.active }
            (.merged it, s.saveItem it)
        | none =>
          let it : CartItem :=
            { id := s.nextId, userId := u, productId := pid, quantity := qn,
              priceAtAdd := product.price, variant := variant, status := .active }
          (.created it,
            { s with items := s.items ++ [it],
                     users := (CartSt.addToSet u pid s).users,
                     nextId := s.nextId + 1 })

/-- Responses of updateCartItemQuantity (set exact quantity). -/
inductive SetQtyResult where
  /-- 400, quantity is required (falsy coerced quantity). -/
  | quantityRequired
  /-- 400, quantity must be an integer between 1 and 100. -/
  | invalidQuantity
  /-- 404, cart item not found or not owned. -/
  | itemNotFound
  /-- 404, product no longer exists. -/
  | productGone
  /-- 200, quantity is already set to this value (no write). -/
  | noopSame (item : CartItem)
  /-- 400, product is out of stock. -/
  | outOfStock
  /-- 400, only availableStock items available in stock. -/
  | insufficientStock (availableStock : Nat)
  /-- 200, quantity replaced. -/
  | updated (item : CartItem) (oldQuantity : Nat)
deriving DecidableEq

/-- updateCartItemQuantity from controllers/cart.controller.js: the falsy
check on the coerced quantity, the integer range check, item and product
lookups, the equality no-op placed before both stock gates, then the
replace-and-restamp write. -/
def updateCartItemQuantity (u iid : Nat) (q : Int) (s : CartSt) :
    SetQtyResult × CartSt :=
  if q = 0 then (.quantityRequired, s)
  else if ¬ (1 ≤ q ∧ q ≤ 100) then (.invalidQuantity, s)
  else
    match s.findCartItem u iid with
    | none => (.itemNotFound, s)
    | some cartItem =>
      match s.findProduct cartItem.productId with
      | none => (.productGone, s)
      | some product =>
        if cartItem.quantity = q.toNat then (.noopSame cartItem, s)
        else if product.countInStock = 0 then (.outOfStock, s)
        else if product.countInStock < q.toNat then
          (.insufficientStock product.countInStock, s)
        else
          let it := { cartItem with
                      quantity := q.toNat
                      priceAtAdd := product.price
                      status := CStatus.active }
          (.updated it cartItem.quantity, s.saveItem it)

/-- Responses of incrementCartQuantity. -/
inductive IncResult where
  /-- 404, cart item not found. -/
  | itemNotFound
  /-- 400, maximum quantity limit reached (100). -/
  | maxLimit (currentQuantity : Nat)
  /-- 404, product not found. -/
  | productNotFound
  /-- 400, maximum available stock reached. -/
  | maxStock (availableStock currentQuantity : Nat)
  /-- 200, quantity incremented. -/
  | ok (item : CartItem)
deriving DecidableEq

/-- incrementCartQuantity from controllers/cart.controller.js: the 100 cap is
checked before the product is even fetched, then the live-stock cap, then
the +1 write. -/
def incrementCartQuantity (u iid : Nat) (s : CartSt) : IncResult × CartSt :=
  match s.findCartItem u iid with
  | none => (.itemNotFound, s)
  | some cartItem =>
    if 100 ≤ cartItem.quantity then (.maxLimit cartItem.quantity, s)
    else
      match s.findProduct cartItem.productId with
      | none => (.productNotFound, s)
      | some product =>
        if product.countInStock < cartItem.quantity + 1 then
          (.maxStock product.countInStock cartItem.quantity, s)
        else
          let it := { cartItem with quantity := cartItem.quantity + 1 }
          (.ok it, s.saveItem it)

/-- Responses of decrementCartQuantity. -/
inductive DecResult where
  /-- 404, cart item not found. -/
  | itemNotFound
  /-- 400, quantity cannot be less than 1, remove the item instead. -/
  | minLimit (currentQuantity : Nat)
  /-- 200, quantity decremented. -/
  | ok (item : CartItem)
deriving DecidableEq

/-- decrementCartQuantity from controllers/cart.controller.js: a quantity at
or below 1 is rejected with the remove-instead suggestion, otherwise the
-1 write (no product or stock check on this path). -/
def decrementCartQuantity (u iid : Nat) (s : CartSt) : DecResult × CartSt :=
  match s.findCartItem u iid with
  | none => (.itemNotFound, s)
  | some cartItem =>
    if cartItem.quantity ≤ 1 then (.minLimit cartItem.quantity, s)
    else
      let it := { cartItem with quantity := cartItem.quantity - 1 }
      (.ok it, s.saveItem it)

/-- Responses of deleteCartItem. -/
inductive DelResult where
  /-- 404, cart item not found or not owned. -/
  | itemNotFound
  /-- 200, deleted. -/
  | ok (deleted : CartItem)
deriving DecidableEq

/-- deleteCartItem from controllers/cart.controller.js: find by _id and
owner, deleteOne the document, and pull its product id from the owner
shopping_cart array, all in one transaction. -/
def deleteCartItem (u iid : Nat) (s : CartSt) : DelResult × CartSt :=
  match s.findCartItem u iid with
  | none => (.itemNotFound, s)
  | some cartItem =>
    let s1 := { s with items := s.items.eraseP (fun it => it.id == iid && it.userId == u) }
    (.ok cartItem, CartSt.pullFromSet u cartItem.productId s1)

/-- Responses of clearCart. -/
inductive ClearResult where
  /-- 404, no cart items found to clear. -/
  | nothingToClear
  /-- 200, cleared. -/
  | ok (deletedCount : Nat)
deriving DecidableEq

/-- Does a cart item match the clearCart delete query (owner plus the
optional status scope)? -/
def clearMatches (u : Nat) (status : Option CStatus) (it : CartItem) : Bool :=
  it.userId == u && (match status with
    | none => true
    | some st => it.status == st)

/-- clearCart from controllers/cart.controller.js: deleteMany on the owner
(optionally scoped to one status); with no scope the shopping_cart array
is reset to empty, with a scope only the deleted product ids are pulled;
an empty match set aborts with 404. -/
def clearCart (u : Nat) (status : Option CStatus) (s : CartSt) :
    ClearResult × CartSt :=
  let itemsToDelete := s.items.filter (clearMatches u status)
  if itemsToDelete.isEmpty then (.nothingToClear, s)
  else
    let s1 := { s with items := s.items.filter (fun it => ! clearMatches u status it) }
    match status with
    | none => (.ok itemsToDelete.length, CartSt.emptySet u s1)
    | some _ =>
      (.ok itemsToDelete.length,
        CartSt.pullManyFromSet u (itemsToDelete.map (fun it => it.productId)) s1)

/-- Responses of deleteCartItemsBatch. -/
inductive BatchResult where
  /-- 400, cartItemIds must be a non-empty array. -/
  | emptyInput
  /-- 400, cannot delete more than 50 items at once. -/
  | tooMany
  /-- 404, no cart items found or not owned. -/
  | noneFound
  /-- 200, deleted. -/
  | ok (deletedCount : Nat)
deriving DecidableEq

/-- Does a cart item match the batch delete query (listed _id plus owner)? -/
def batchMatches (u : Nat) (ids : List Nat) (it : CartItem) : Bool :=
  it.id ∈ ids && it.userId == u

/-- deleteCartItemsBatch from controllers/cart.controller.js: a non-empty
list of at most 50 ids, find the owned items among them, deleteMany with
the same query and pull the found product ids from shopping_cart. -/
def deleteCartItemsBatch (u : Nat) (ids : List Nat) (s : CartSt) :
    BatchResult × CartSt :=
  if ids.isEmpty then (.emptyInput, s)
  else if 50 < ids.length then (.tooMany, s)
  else
    let cartItems := s.items.filter (batchMatches u ids)
    if cartItems.isEmpty then (.noneFound, s)
    else
      let s1 := { s with items := s.items.filter (fun it => ! batchMatches u ids it) }
      (.ok cartItems.length,
        CartSt.pullManyFromSet u (cartItems.map (fun it => it.productId)) s1)

/-- Responses of saveForLater. -/
inductive SaveResult where
  /-- 404, cart item not found. -/
  | itemNotFound
  /-- 400, item is already saved for later. -/
  | alreadySaved
  /-- 200, saved for later. -/
  | ok (item : CartItem)
deriving DecidableEq

/-- saveForLater from controllers/cart.controller.js: only the status field
flips to saved_for_later; the shopping_cart mirror is not touched. -/
def saveForLater (u iid : Nat) (s : CartSt) : SaveResult × CartSt :=
  match s.findCartItem u iid with
  | none => (.itemNotFound, s)
  | some cartItem =>
    if cartItem.status = .savedForLater then (.alreadySaved, s)
    else
      let it := { cartItem with status := CStatus.savedForLater }
      (.ok it, s.saveItem it)

/-- Responses of moveToCart. -/
inductive MoveResult where
  /-- 404, cart item not found. -/
  | itemNotFound
  /-- 400, item is already in active cart. -/
  | alreadyActive
  /-- 404, product no longer exists. -/
  | productGone
  /-- 400, product is out of stock. -/
  | outOfStock
  /-- 400, only availableStock items available, update quantity first. -/
  | insufficientStock (availableStock currentQuantity : Nat)
  /-- 200, moved back to active. -/
  | ok (item : CartItem)
deriving DecidableEq

/-- moveToCart from controllers/cart.controller.js: the already-active check
comes before the populated-product checks; moving back re-validates stock
and re-stamps priceAtAdd to the current price. -/
def moveToCart (u iid : Nat) (s : CartSt) : MoveResult × CartSt :=
  match s.findCartItem u iid with
  | none => (.itemNotFound, s)
  | some cartItem =>
    if cartItem.status = .active then (.alreadyActive, s)
    else
      match s.findProduct cartItem.productId with
      | none => (.productGone, s)
      | some product =>
        if product.countInStock = 0 then (.outOfStock, s)
        else if product.countInStock < cartItem.quantity then
          (.insufficientStock product.countInStock cartItem.quantity, s)
        else
          let it := { cartItem with
                      status := CStatus.active
                      priceAtAdd := product.price }
          (.ok it, s.saveItem it)

/-- The nine mutating cart operations, packaged for uniform statements about
all of them. -/
inductive CartOp where
  | add (u pid : Nat) (q : Int) (variant : Option String)
  | setQty (u iid : Nat) (q : Int)
  | increment (u iid : Nat)
  | decrement (u iid : Nat)
  | delete (u iid : Nat)
  | clear (u : Nat) (status : Option CStatus)
  | batchDelete (u : Nat) (ids : List Nat)
  | save (u iid : Nat)
  | move (u iid : Nat)

/-- Run one cart operation, keeping only the resulting state. -/
def applyCartOp : CartOp → CartSt → CartSt
  | .add u pid q v, s => (createCartItem u pid q v s).2
  | .setQty u iid q, s => (updateCartItemQuantity u iid q s).2
  | .increment u iid, s => (incrementCartQuantity u iid s).2
  | .decrement u iid, s => (decrementCartQuantity u iid s).2
  | .delete u iid, s => (deleteCartItem u iid s).2
  | .clear u st, s => (clearCart u st s).2
  | .batchDelete u ids, s => (deleteCartItemsBatch u ids s).2
  | .save u iid, s => (saveForLater u iid s).2
  | .move u iid, s => (moveToCart u iid s).2

/-! ## controllers/mylist.controller.js : wishlist snapshot sync -/

/-- A MyList (wishlist) document: the referenced product and the denormalized
snapshot of its display fields.  oldPrice may be null. -/
structure WishItem where
  productId : Nat
  productTitle : String
  productImage : String
  price : ℚ
  oldPrice : Option ℚ
  rating : ℚ
  discount : ℚ
deriving DecidableEq

/-- The image url used by the sync pass:
product.images?.[0]?.url || item.productImage (an absent first image, or an
empty url, falls back to the stored snapshot image). -/
def productImageUrl (item : WishItem) (product : Product) : String :=
  match product.images with
  | [] => item.productImage
  | url :: _ => if url ≠ "" then url else item.productImage

/-- The hasChanges test of syncWishlistProducts: strict inequality of every
synced snapshot field against the live product (a null oldPrice is unequal
to any number). -/
def syncHasChanges (item : WishItem) (product : Product) : Bool :=
  item.productTitle != product.name ||
  item.price != product.price ||
  item.oldPrice != some product.oldPrice ||
  item.discount != product.discount ||
  item.rating != product.rating ||
  item.productImage != productImageUrl item product

/-- The per-item body of syncWishlistProducts: when hasChanges, every synced
field is overwritten with the live value, except that a falsy (zero)
oldPrice is stored as null and falsy discount/rating fall back to 0.
Returns the written item and whether it was counted as updated. -/
def syncItem (item : WishItem) (product : Product) : WishItem × Bool :=
  if syncHasChanges item product then
    ({ item with
        productTitle := product.name
        productImage := productImageUrl item product
        price := product.price
        oldPrice := if product.oldPrice = 0 then none else some product.oldPrice
        discount := if product.discount = 0 then 0 else product.discount
        rating := if product.rating = 0 then 0 else product.rating }, true)
  else (item, false)

/-- ProductModel.findById as used by the wishlist sync pass. -/
def lookupProduct (products : List (Nat × Product)) (pid : Nat) : Option Product :=
  (products.find? (fun e => e.1 == pid)).map (fun e => e.2)

/-- The counters reported by syncWishlistProducts. -/
structure SyncResults where
  successCount : Nat
  failedCount : Nat
  updatedCount : Nat
deriving DecidableEq

/-- syncWishlistProducts from controllers/mylist.controller.js: walk every
wishlist item, re-fetch its product, count a missing product as a failure
and leave the item untouched, otherwise run the per-item sync and count an
update when it reported changes. -/
def syncWishlistProducts (items : List WishItem) (products : List (Nat × Product)) :
    List WishItem × SyncResults :=
  match items with
  | [] => ([], ⟨0, 0, 0⟩)
  | item :: rest =>
    let tail := syncWishlistProducts rest products
    match lookupProduct products item.productId with
    | none =>
      (item :: tail.1, { tail.2 with failedCount := tail.2.failedCount + 1 })
    | some p =>
      let r := syncItem item p
      (r.1 :: tail.1,
        { tail.2 with
            successCount := tail.2.successCount + 1,
            updatedCount := tail.2.updatedCount + (if r.2 then 1 else 0) })

/-! ## Well-formedness and the shopping-cart mirror invariants -/

namespace CartSt

/-- Mongo grants distinct _id values to the cart documents. -/
def IdsDistinct (s : CartSt) : Prop :=
  s.items.Pairwise (fun a b => a.id ≠ b.id)

/-- The unique compound index on (userId, productId) of the cart schema. -/
def PairsDistinct (s : CartSt) : Prop :=
  s.items.Pairwise (fun a b => a.userId ≠ b.userId ∨ a.productId ≠ b.productId)

/-- Well-formed cart collection: distinct ids and a respected unique
(userId, productId) index. -/
def WF (s : CartSt) : Prop := s.IdsDistinct ∧ s.PairsDistinct

/-- The mirror invariant the code actually maintains: each user's
shopping_cart array holds exactly the product ids of that user's cart line
items of any status. -/
def MirrorInv (s : CartSt) : Prop :=
  ∀ e ∈ s.users,
    (∀ p ∈ e.2, ∃ it ∈ s.items, it.userId = e.1 ∧ it.productId = p) ∧
    (∀ it ∈ s.items, it.userId = e.1 → it.productId ∈ e.2)

/-- The mirror invariant as the specification states it: each user's
shopping_cart array holds exactly the product ids of that user's active
cart line items. -/
def ActiveMirrorInv (s : CartSt) : Prop :=
  ∀ e ∈ s.users,
    (∀ p ∈ e.2, ∃ it ∈ s.items,
        it.userId = e.1 ∧ it.productId = p ∧ it.status = CStatus.active) ∧
    (∀ it ∈ s.items, it.userId = e.1 → it.status = CStatus.active → it.productId ∈ e.2)

end CartSt

/-- The mirror invariant only uses bounded quantifiers, so it is decidable
and can be evaluated on sample states. -/
instance (s : CartSt) : Decidable s.MirrorInv :=
  decidable_of_iff
    (∀ e ∈ s.users,
      (∀ p ∈ e.2, ∃ it ∈ s.items, it.userId = e.1 ∧ it.productId = p) ∧
      (∀ it ∈ s.items, it.userId = e.1 → it.productId ∈ e.2))
    Iff.rfl

/-- The active-items mirror invariant is likewise decidable. -/
instance (s : CartSt) : Decidable s.ActiveMirrorInv :=
  decidable_of_iff
    (∀ e ∈ s.users,
      (∀ p ∈ e.2, ∃ it ∈ s.items,
          it.userId = e.1 ∧ it.productId = p ∧ it.status = CStatus.active) ∧
      (∀ it ∈ s.items, it.userId = e.1 → it.status = CStatus.active → it.productId ∈ e.2))
    Iff.rfl

/-! ## Concrete sample data for evaluating the model -/

/-- A sample product: 10 in stock, price 5, a 20 old price. -/
def prodA : Product :=
  { name := "Phone", price := 5, oldPrice := 20, countInStock := 10,
    discount := 10, rating := 4, brand := "Acme", images := ["imgA"] }

/-- A sample product with only 2 in stock. -/
def prodB : Product :=
  { name := "Lamp", price := 7, oldPrice := 9, countInStock := 2,
    discount := 0, rating := 3, brand := "Acme", images := [] }

/-- A sample active cart line item of user 0 for product 1. -/
def itemA : CartItem :=
  { id := 0, userId := 0, productId := 1, quantity := 2, priceAtAdd := 3,
    variant := none, status := .active }

/-- A sample cart state: products 1 and 2, one active line item of user 0,
whose shopping_cart mirror holds product 1. -/
def stA : CartSt :=
  { products := [(1, prodA), (2, prodB)], items := [itemA],
    users := [(0, [1])], nextId := 1 }

/-- A live product whose oldPrice is the schema default 0. -/
def prodZeroOld : Product :=
  { name := "Mug", price := 10, oldPrice := 0, countInStock := 5,
    discount := 0, rating := 0, brand := "Acme", images := ["img"] }

/-- The wishlist snapshot created for prodZeroOld (a falsy oldPrice is stored
as null). -/
def wishStale : WishItem :=
  { productId := 1, productTitle := "Mug", productImage := "img", price := 10,
    oldPrice := none, rating := 0, discount := 0 }

/-- A live product with a truthy oldPrice. -/
def prodFresh : Product :=
  { name := "Pot", price := 12, oldPrice := 15, countInStock := 5,
    discount := 20, rating := 4, brand := "Acme", images := ["img2"] }

/-- A wishlist snapshot that drifted from prodFresh. -/
def wishDrifted : WishItem :=
  { productId := 2, productTitle := "Pan", productImage := "old", price := 9,
    oldPrice := some 11, rating := 3, discount := 5 }

/-! ## Basic lemmas about well-formed states -/

theorem CartSt.eq_of_mem_of_id_eq {s : CartSt} (h : s.IdsDistinct) {x y : CartItem}
    (hx : x ∈ s.items) (hy : y ∈ s.items) (hid : x.id = y.id) : x = y := by
  by_contra hne
  have hsym : Symmetric (fun a b : CartItem => a.id ≠ b.id) :=
    fun a b hab he => hab he.symm
  exact (List.Pairwise.forall hsym h hx hy hne) hid

theorem CartSt.eq_of_mem_of_pair_eq {s : CartSt} (h : s.PairsDistinct) {x y : CartItem}
    (hx : x ∈ s.items) (hy : y ∈ s.items)
    (hu : x.userId = y.userId) (hp : x.productId = y.productId) : x = y := by
  by_contra hne
  have hsym : Symmetric (fun a b : CartItem => a.userId ≠ b.userId ∨ a.productId ≠ b.productId) :=
    fun a b hab => hab.imp (fun h1 e => h1 e.symm) (fun h2 e => h2 e.symm)
  rcases List.Pairwise.forall hsym h hx hy hne with h1 | h2
  · exact h1 hu
  · exact h2 hp

theorem CartSt.findCartByProduct_eq_some {s : CartSt} (h : s.PairsDistinct)
    {u pid : Nat} {it : CartItem} (hmem : it ∈ s.items)
    (hu : it.userId = u) (hp : it.productId = pid) :
    s.findCartByProduct u pid = some it := by
  have hex : (s.items.find? (fun x => x.userId == u && x.productId == pid)).isSome := by
    rw [List.find?_isSome]
    exact ⟨it, hmem, by simp [hu, hp]⟩
  obtain ⟨y, hy⟩ := Option.isSome_iff_exists.mp hex
  have hyP := List.find?_some hy
  simp only [Bool.and_eq_true, beq_iff_eq] at hyP
  have hymem := List.mem_of_find?_eq_some hy
  have hxy : y = it :=
    CartSt.eq_of_mem_of_pair_eq h hymem hmem (by rw [hyP.1, hu]) (by rw [hyP.2, hp])
  unfold CartSt.findCartByProduct
  rw [hy, hxy]

/-! ## C10 : the out-of-stock branch of createCartItem is dead code -/

/-- C10: for every state and every add-to-cart request, createCartItem never
answers with the 400 response whose message is that the product is out of
stock: the quantity validation forces quantity >= 1 before any stock check,
so a zero stock has already been rejected by the earlier
countInStock < quantity comparison. -/
theorem createCartItem_outOfStock_unreachable (u pid : Nat) (q : Int)
    (v : Option String) (s : CartSt) :
    (createCartItem u pid q v s).1 ≠ AddResult.outOfStock := by
  by_cases hq : 1 ≤ q ∧ q ≤ 100
  · rcases hfp : s.findProduct pid with _ | product
    · simp [createCartItem, hq, hfp]
    · by_cases hs : product.countInStock < q.toNat
      · simp [createCartItem, hq, hfp, hs]
      · have hzero : ¬ product.countInStock = 0 := by
          have h1 : 1 ≤ q := hq.1
          omega
        rcases hfe : s.findCartByProduct u pid with _ | existing
        · simp [createCartItem, hq, hfp, hs, hzero, hfe]
        · by_cases h100 : 100 < existing.quantity + q.toNat
          · simp [createCartItem, hq, hfp, hs, hzero, hfe, h100]
          · by_cases hcap : product.countInStock < existing.quantity + q.toNat
            · simp [createCartItem, hq, hfp, hs, hzero, hfe, h100, hcap]
            · simp [createCartItem, hq, hfp, hs, hzero, hfe, h100, hcap]
  · simp [createCartItem, hq]

/-! ## C2 : an add whose quantity exceeds live stock is rejected atomically -/

/-- C2: an add-to-cart request with a valid quantity that exceeds the live
countInStock is answered with the 400 insufficient-stock response carrying
the available stock, and the returned state is exactly the input state: no
line item is created or changed and the shopping_cart mirror of every user
is untouched. -/
theorem createCartItem_rejects_excess_quantity (u pid : Nat) (q : Int)
    (v : Option String) (s : CartSt) (product : Product)
    (hfp : s.findProduct pid = some product)
    (h1 : 1 ≤ q) (h2 : q ≤ 100)
    (hstock : product.countInStock < q.toNat) :
    createCartItem u pid q v s = (.insufficientStock product.countInStock, s) := by
  have hq : 1 ≤ q ∧ q ≤ 100 := ⟨h1, h2⟩
  simp [createCartItem, hq, hfp, hstock]

/-- Witness for C2 on the sample state: product 2 has 2 in stock, a request
for 5 is rejected with availableStock 2 and the state is unchanged. -/
theorem createCartItem_rejects_excess_quantity_witness :
    createCartItem 0 2 5 none stA = (.insufficientStock 2, stA) :=
  createCartItem_rejects_excess_quantity 0 2 5 none stA prodB (by rfl)
    (by decide) (by decide) (by decide)

/-! ## C9 : set-quantity no-op precedes stock validation -/

/-- C9: when the requested quantity equals the current quantity of the found
line item, updateCartItemQuantity answers 200 with the unchanged item and
does not touch the state, with no hypothesis at all on the live stock
(the equality check precedes both stock gates); and only when the request
differs is stock re-validated: a differing in-stock request replaces the
quantity and re-stamps priceAtAdd to the live product price, while a
differing request above stock is rejected with the available stock. -/
theorem updateCartItemQuantity_noop_and_restamp (u iid : Nat) (q : Int) (s : CartSt)
    (it : CartItem) (product : Product)
    (hit : s.findCartItem u iid = some it)
    (hprod : s.findProduct it.productId = some product)
    (h1 : 1 ≤ q) (h2 : q ≤ 100) :
    (it.quantity = q.toNat → updateCartItemQuantity u iid q s = (.noopSame it, s)) ∧
    (it.quantity ≠ q.toNat → product.countInStock ≠ 0 →
      ¬ product.countInStock < q.toNat →
      updateCartItemQuantity u iid q s =
        (.updated { it with
                    quantity := q.toNat
                    priceAtAdd := product.price
                    status := CStatus.active } it.quantity,
         s.saveItem { it with
                      quantity := q.toNat
                      priceAtAdd := product.price
                      status := CStatus.active })) ∧
    (it.quantity ≠ q.toNat → product.countInStock ≠ 0 →
      product.countInStock < q.toNat →
      updateCartItemQuantity u iid q s = (.insufficientStock product.countInStock, s)) := by
  have hq0 : ¬ q = 0 := by omega
  have hq : 1 ≤ q ∧ q ≤ 100 := ⟨h1, h2⟩
  refine ⟨fun heq => ?_, fun hne hz hs => ?_, fun hne hz hs => ?_⟩
  · simp [updateCartItemQuantity, hq0, hq, hit, hprod, heq]
  · simp [updateCartItemQuantity, hq0, hq, hit, hprod, hne, hz, hs]
  · simp [updateCartItemQuantity, hq0, hq, hit, hprod, hne, hz, hs]

/-- Witness for C9 on the sample state: requesting the present quantity 2 is
a visible no-op. -/
theorem updateCartItemQuantity_noop_witness :
    updateCartItemQuantity 0 0 2 stA = (.noopSame itemA, stA) :=
  (updateCartItemQuantity_noop_and_restamp 0 0 2 stA itemA prodA rfl rfl
    (by decide) (by decide)).1 (by decide)

/-! ## C6 : increment and decrement stay within [1,100] and live stock -/

/-- C6: increment and decrement move the found line item by exactly one unit
and keep it inside [1,100] and the live stock: increment is rejected
untouched when quantity+1 would pass 100 (checked even before the product
is fetched) or pass the live countInStock, and otherwise yields quantity+1,
which is at most 100 and at most the stock; decrement of an item at
quantity 1 is rejected untouched with the delete-instead steering response,
and otherwise yields quantity-1, which is still at least 1. -/
theorem increment_decrement_bounds (u iid : Nat) (s : CartSt) (it : CartItem)
    (hit : s.findCartItem u iid = some it) :
    (100 ≤ it.quantity →
       incrementCartQuantity u iid s = (.maxLimit it.quantity, s)) ∧
    (∀ product, it.quantity < 100 → s.findProduct it.productId = some product →
       product.countInStock < it.quantity + 1 →
       incrementCartQuantity u iid s = (.maxStock product.countInStock it.quantity, s)) ∧
    (∀ product, it.quantity < 100 → s.findProduct it.productId = some product →
       it.quantity + 1 ≤ product.countInStock →
       incrementCartQuantity u iid s =
         (.ok { it with quantity := it.quantity + 1 },
          s.saveItem { it with quantity := it.quantity + 1 }) ∧
       it.quantity + 1 ≤ 100 ∧ it.quantity + 1 ≤ product.countInStock) ∧
    (it.quantity = 1 → decrementCartQuantity u iid s = (.minLimit 1, s)) ∧
    (2 ≤ it.quantity →
       decrementCartQuantity u iid s =
         (.ok { it with quantity := it.quantity - 1 },
          s.saveItem { it with quantity := it.quantity - 1 }) ∧
       1 ≤ it.quantity - 1) := by
  refine ⟨fun hcap => ?_, fun product hcap hprod hs => ?_,
          fun product hcap hprod hs => ?_, fun hone => ?_, fun htwo => ?_⟩
  · simp [incrementCartQuantity, hit, hcap]
  · have hcap2 : ¬ 100 ≤ it.quantity := by omega
    simp [incrementCartQuantity, hit, hcap2, hprod, hs]
  · have hcap2 : ¬ 100 ≤ it.quantity := by omega
    have hs2 : ¬ product.countInStock < it.quantity + 1 := by omega
    refine ⟨by simp [incrementCartQuantity, hit, hcap2, hprod, hs2], by omega, hs⟩
  · simp [decrementCartQuantity, hit, hone]
  · have hone2 : ¬ it.quantity ≤ 1 := by omega
    exact ⟨by simp [decrementCartQuantity, hit, hone2], by omega⟩

/-- Witness for C6 on the sample state: incrementing the quantity-2 item with
10 in stock succeeds and lands at 3, within both caps. -/
theorem increment_decrement_bounds_witness :
    incrementCartQuantity 0 0 stA =
      (.ok { itemA with quantity := itemA.quantity + 1 },
       stA.saveItem { itemA with quantity := itemA.quantity + 1 }) ∧
    itemA.quantity + 1 ≤ 100 ∧ itemA.quantity + 1 ≤ prodA.countInStock :=
  (increment_decrement_bounds 0 0 stA itemA rfl).2.2.1 prodA (by decide) rfl (by decide)

/-! ## C1 : adding an already-carted product merges by summing -/

/-- Replacing a line item document in place (a save by _id) and then
selecting by the (userId, productId) pair yields exactly the replacement,
provided ids and pairs are distinct and the replacement keeps the id and
the pair of a present item. -/
theorem filter_replace_singleton (it it' : CartItem)
    (hid : it'.id = it.id) (hu : it'.userId = it.userId)
    (hp : it'.productId = it.productId) :
    ∀ l : List CartItem,
      l.Pairwise (fun a b => a.id ≠ b.id) →
      l.Pairwise (fun a b => a.userId ≠ b.userId ∨ a.productId ≠ b.productId) →
      it ∈ l →
      (l.map (fun x => if x.id == it'.id then it' else x)).filter
        (fun x => x.userId == it.userId && x.productId == it.productId) = [it']
  | [], _, _, hmem => by cases hmem
  | a :: tl, hids, hpairs, hmem => by
    rcases List.pairwise_cons.mp hids with ⟨hida, hidtl⟩
    rcases List.pairwise_cons.mp hpairs with ⟨hpa, hptl⟩
    rcases List.mem_cons.mp hmem with heq | hmem2
    · subst heq
      have hrest : (tl.map (fun x => if x.id == it'.id then it' else x)).filter
          (fun x => x.userId == it.userId && x.productId == it.productId) = [] := by
        rw [List.filter_eq_nil_iff]
        intro x hx
        rcases List.mem_map.mp hx with ⟨y, hy, hfy⟩
        have hyid : ¬ (y.id == it'.id) = true := by
          simp only [beq_iff_eq, hid]
          exact fun e => hida y hy e.symm
        rw [if_neg hyid] at hfy
        subst hfy
        simp only [Bool.and_eq_true, beq_iff_eq, not_and]
        intro h1 h2
        rcases hpa y hy with hne | hne
        · exact hne h1.symm
        · exact hne h2.symm
      simp only [List.map_cons]
      rw [if_pos (by simp [hid]), List.filter_cons_of_pos (by simp [hu, hp]), hrest]
    · have haid : ¬ (a.id == it'.id) = true := by
        simp only [beq_iff_eq, hid]
        exact fun e => hida it hmem2 e
      simp only [List.map_cons]
      rw [if_neg haid,
        List.filter_cons_of_neg (by rcases hpa it hmem2 with hne | hne <;> simp [hne])]
      exact filter_replace_singleton it it' hid hu hp tl hidtl hptl hmem2

/-- C1: adding a product that already has a line item for this user, with a
second quantity q2 such that the sum stays within 100 and within the live
stock, merges: the response is the 200 merged answer, and afterwards the
user has exactly one line item for the product, its quantity is the sum of
the two quantities, its priceAtAdd is the product price at the time of
this second add, and its status is active. -/
theorem createCartItem_merges_by_summing (u pid : Nat) (q2 : Int) (v : Option String)
    (s : CartSt) (product : Product) (it : CartItem)
    (hWF : s.WF)
    (hprod : s.findProduct pid = some product)
    (hmem : it ∈ s.items) (hu : it.userId = u) (hp : it.productId = pid)
    (h1 : 1 ≤ q2) (h2 : q2 ≤ 100)
    (hcap : it.quantity + q2.toNat ≤ 100)
    (hstock : it.quantity + q2.toNat ≤ product.countInStock) :
    ∃ it', (createCartItem u pid q2 v s).1 = .merged it' ∧
      (createCartItem u pid q2 v s).2.items.filter
        (fun x => x.userId == u && x.productId == pid) = [it'] ∧
      it'.quantity = it.quantity + q2.toNat ∧
      it'.priceAtAdd = product.price ∧
      it'.status = CStatus.active := by
  subst hu hp
  have hfind : s.findCartByProduct it.userId it.productId = some it :=
    CartSt.findCartByProduct_eq_some hWF.2 hmem rfl rfl
  have hq : 1 ≤ q2 ∧ q2 ≤ 100 := ⟨h1, h2⟩
  have hq1 : 1 ≤ q2.toNat := by omega
  have hs1 : ¬ product.countInStock < q2.toNat := by omega
  have hs0 : ¬ product.countInStock = 0 := by omega
  have hc1 : ¬ 100 < it.quantity + q2.toNat := by omega
  have hc2 : ¬ product.countInStock < it.quantity + q2.toNat := by omega
  refine ⟨{ it with
            quantity := it.quantity + q2.toNat
            priceAtAdd := product.price
            variant := v
            status := CStatus.active }, ?_, ?_, rfl, rfl, rfl⟩
  · simp [createCartItem, hq, hprod, hs1, hs0, hfind, hc1, hc2]
  · have hred : (createCartItem it.userId it.productId q2 v s).2 =
        s.saveItem { it with
                     quantity := it.quantity + q2.toNat
                     priceAtAdd := product.price
                     variant := v
                     status := CStatus.active } := by
      simp [createCartItem, hq, hprod, hs1, hs0, hfind, hc1, hc2]
    rw [hred]
    simp only [CartSt.saveItem]
    exact filter_replace_singleton it
      { it with
        quantity := it.quantity + q2.toNat
        priceAtAdd := product.price
        variant := v
        status := CStatus.active }
      rfl rfl rfl s.items hWF.1 hWF.2 hmem

/-- Witness for C1 on the sample state: user 0 already holds 2 units of
product 1 (stock 10, price 5); adding 3 more yields a single merged line
item of quantity 5 stamped at price 5. -/
theorem createCartItem_merges_by_summing_witness :
    ∃ it', (createCartItem 0 1 3 none stA).1 = .merged it' ∧
      (createCartItem 0 1 3 none stA).2.items.filter
        (fun x => x.userId == 0 && x.productId == 1) = [it'] ∧
      it'.quantity = itemA.quantity + (3 : Int).toNat ∧
      it'.priceAtAdd = prodA.price ∧
      it'.status = CStatus.active :=
  createCartItem_merges_by_summing 0 1 3 none stA prodA itemA
    ⟨by simp [CartSt.IdsDistinct, stA], by simp [CartSt.PairsDistinct, stA]⟩
    rfl (by decide) rfl rfl
    (by decide) (by decide) (by decide) (by decide)

/-! ## C3 : the shopping_cart mirror invariant -/

theorem CartSt.mem_of_findCartItem {s : CartSt} {u iid : Nat} {it : CartItem}
    (h : s.findCartItem u iid = some it) : it ∈ s.items :=
  List.mem_of_find?_eq_some h

theorem CartSt.findCartItem_props {s : CartSt} {u iid : Nat} {it : CartItem}
    (h : s.findCartItem u iid = some it) : it.id = iid ∧ it.userId = u := by
  have h2 := List.find?_some h
  simpa using h2

theorem CartSt.mem_of_findCartByProduct {s : CartSt} {u pid : Nat} {it : CartItem}
    (h : s.findCartByProduct u pid = some it) : it ∈ s.items :=
  List.mem_of_find?_eq_some h

/-- A save by _id preserves the mirror invariant when every item carrying the
saved id already carries the written (userId, productId) pair. -/
theorem mirrorInv_saveItem {s : CartSt} {it : CartItem}
    (h : ∀ x ∈ s.items, x.id = it.id → x.userId = it.userId ∧ x.productId = it.productId)
    (hInv : s.MirrorInv) : (s.saveItem it).MirrorInv := by
  have hpair : ∀ x ∈ s.items,
      ((if x.id == it.id then it else x).userId = x.userId ∧
       (if x.id == it.id then it else x).productId = x.productId) := by
    intro x hx
    by_cases hid : (x.id == it.id) = true
    · rcases h x hx (beq_iff_eq.mp hid) with ⟨h1, h2⟩
      rw [if_pos hid, h1, h2]
      exact ⟨rfl, rfl⟩
    · rw [if_neg hid]
      exact ⟨rfl, rfl⟩
  intro e he
  rcases hInv e he with ⟨h1, h2⟩
  constructor
  · intro p hp
    rcases h1 p hp with ⟨y, hy, hyu, hyp⟩
    refine ⟨(if y.id == it.id then it else y), List.mem_map.mpr ⟨y, hy, rfl⟩, ?_, ?_⟩
    · rw [(hpair y hy).1, hyu]
    · rw [(hpair y hy).2, hyp]
  · intro z hz hzu
    rcases List.mem_map.mp hz with ⟨y, hy, rfl⟩
    rw [(hpair y hy).2]
    exact h2 y hy (by rw [← (hpair y hy).1]; exact hzu)

/-- A save by _id of an update of a present item that keeps its id and its
(userId, productId) pair preserves the mirror invariant. -/
theorem mirrorInv_save_mem {s : CartSt} {cartItem it : CartItem}
    (hIds : s.IdsDistinct) (hmem : cartItem ∈ s.items)
    (hid : it.id = cartItem.id) (hu : it.userId = cartItem.userId)
    (hp : it.productId = cartItem.productId)
    (hInv : s.MirrorInv) : (s.saveItem it).MirrorInv :=
  mirrorInv_saveItem
    (fun x hx hxid => by
      have hx2 : x = cartItem :=
        CartSt.eq_of_mem_of_id_eq hIds hx hmem (hxid.trans hid)
      exact ⟨by rw [hx2, hu], by rw [hx2, hp]⟩)
    hInv

/-- Appending a fresh line item for (u, pid) while adding pid to the mirror
set of user u preserves the mirror invariant. -/
theorem mirrorInv_create {s : CartSt} {u pid : Nat} {it : CartItem}
    (hu : it.userId = u) (hp : it.productId = pid) (hInv : s.MirrorInv) :
    CartSt.MirrorInv { s with
                       items := s.items ++ [it]
                       users := (CartSt.addToSet u pid s).users
                       nextId := s.nextId + 1 } := by
  intro e he
  simp only [CartSt.addToSet, List.mem_map] at he
  rcases he with ⟨e0, he0, rfl⟩
  rcases hInv e0 he0 with ⟨h1, h2⟩
  by_cases hequ : (e0.1 == u) = true
  · rw [if_pos hequ]
    have hu0 : e0.1 = u := beq_iff_eq.mp hequ
    constructor
    · intro p hp2
      by_cases hmemp : pid ∈ e0.2
      · rw [if_pos hmemp] at hp2
        rcases h1 p hp2 with ⟨z, hz, hz1, hz2⟩
        exact ⟨z, List.mem_append_left _ hz, hz1, hz2⟩
      · rw [if_neg hmemp] at hp2
        rcases List.mem_append.mp hp2 with hin | hin
        · rcases h1 p hin with ⟨z, hz, hz1, hz2⟩
          exact ⟨z, List.mem_append_left _ hz, hz1, hz2⟩
        · have hpid : p = pid := List.mem_singleton.mp hin
          exact ⟨it, List.mem_append_right _ (List.mem_singleton.mpr rfl),
            by rw [hu, hu0], by rw [hp, hpid]⟩
    · intro z hz hzu
      rcases List.mem_append.mp hz with hin | hin
      · have hmem2 := h2 z hin hzu
        by_cases hmemp : pid ∈ e0.2
        · rw [if_pos hmemp]; exact hmem2
        · rw [if_neg hmemp]; exact List.mem_append_left _ hmem2
      · have hzit : z = it := List.mem_singleton.mp hin
        subst hzit
        rw [hp]
        by_cases hmemp : pid ∈ e0.2
        · rw [if_pos hmemp]; exact hmemp
        · rw [if_neg hmemp]
          exact List.mem_append_right _ (List.mem_singleton.mpr rfl)
  · rw [if_neg hequ]
    constructor
    · intro p hp2
      rcases h1 p hp2 with ⟨z, hz, hz1, hz2⟩
      exact ⟨z, List.mem_append_left _ hz, hz1, hz2⟩
    · intro z hz hzu
      rcases List.mem_append.mp hz with hin | hin
      · exact h2 z hin hzu
      · have hzit : z = it := List.mem_singleton.mp hin
        subst hzit
        rw [hu] at hzu
        exact absurd (beq_iff_eq.mpr hzu.symm) hequ

/-- The head of a split witnessed by eraseP does not reappear in the
remainder when the whole list has pairwise distinct ids. -/
theorem not_mem_of_pairwise_ne_id {a : CartItem} {l1 l2 : List CartItem}
    (h : (l1 ++ a :: l2).Pairwise (fun x y => x.id ≠ y.id)) : a ∉ l1 ++ l2 := by
  rcases List.pairwise_append.mp h with ⟨_, hmid, hcross⟩
  intro hmem
  rcases List.mem_append.mp hmem with hin | hin
  · exact (hcross a hin a (List.mem_cons_self a l2)) rfl
  · exact ((List.pairwise_cons.mp hmid).1 a hin) rfl

/-- Deleting the found line item and pulling its product id from the owner
mirror set preserves the mirror invariant. -/
theorem mirrorInv_delete {s : CartSt} {u iid : Nat} {cartItem : CartItem}
    (hWF : s.WF)
    (hfind : s.findCartItem u iid = some cartItem)
    (hInv : s.MirrorInv) :
    CartSt.MirrorInv (CartSt.pullFromSet u cartItem.productId
      { s with items := s.items.eraseP (fun x => x.id == iid && x.userId == u) }) := by
  have hmem := CartSt.mem_of_findCartItem hfind
  have hprops := CartSt.findCartItem_props hfind
  have hpred : (fun x : CartItem => x.id == iid && x.userId == u) cartItem = true := by
    simp [hprops.1, hprops.2]
  obtain ⟨a, l1, l2, hl1, hpa, hl, herase⟩ :=
    @List.exists_of_eraseP CartItem (fun x => x.id == iid && x.userId == u)
      s.items cartItem hmem hpred
  have hacart : a = cartItem := by
    have haid : a.id = iid ∧ a.userId = u := by simpa using hpa
    have hamem : a ∈ s.items := by rw [hl]; exact List.mem_append_right _ (List.mem_cons_self a l2)
    exact CartSt.eq_of_mem_of_id_eq hWF.1 hamem hmem (haid.1.trans hprops.1.symm)
  subst hacart
  have hnot : a ∉ l1 ++ l2 := not_mem_of_pairwise_ne_id (by rw [← hl]; exact hWF.1)
  unfold CartSt.pullFromSet
  intro e he
  simp only [List.mem_map] at he
  rcases he with ⟨e0, he0, rfl⟩
  rcases hInv e0 he0 with ⟨h1, h2⟩
  have hmem_sub : ∀ z, z ∈ l1 ++ l2 → z ∈ s.items := by
    intro z hz
    rw [hl]
    rcases List.mem_append.mp hz with hin | hin
    · exact List.mem_append_left _ hin
    · exact List.mem_append_right _ (List.mem_cons_of_mem a hin)
  have hmem_back : ∀ z, z ∈ s.items → z = a ∨ z ∈ l1 ++ l2 := by
    intro z hz
    rw [hl] at hz
    rcases List.mem_append.mp hz with hin | hin
    · exact Or.inr (List.mem_append_left _ hin)
    · rcases List.mem_cons.mp hin with heq | hin2
      · exact Or.inl heq
      · exact Or.inr (List.mem_append_right _ hin2)
  by_cases hequ : (e0.1 == u) = true
  · rw [if_pos hequ]
    have hu0 : e0.1 = u := beq_iff_eq.mp hequ
    constructor
    · intro p hp2
      simp only [List.mem_filter, decide_eq_true_eq] at hp2
      rcases h1 p hp2.1 with ⟨z, hz, hz1, hz2⟩
      have hza : z ≠ a := by
        intro hzeq
        exact hp2.2 (by rw [← hz2, hzeq])
      rcases hmem_back z hz with heq | hin
      · exact absurd heq hza
      · exact ⟨z, by rw [herase]; exact hin, hz1, hz2⟩
    · intro z hz hzu
      rw [herase] at hz
      have hzs : z ∈ s.items := hmem_sub z hz
      have hzmem := h2 z hzs hzu
      simp only [List.mem_filter, decide_eq_true_eq]
      refine ⟨hzmem, ?_⟩
      intro hzp
      have hza : z = a := by
        apply CartSt.eq_of_mem_of_pair_eq hWF.2 hzs hmem
        · rw [hzu, hu0, hprops.2]
        · exact hzp
      rw [hza] at hz
      exact hnot hz
  · rw [if_neg hequ]
    have hu0 : e0.1 ≠ u := fun h => hequ (beq_iff_eq.mpr h)
    constructor
    · intro p hp2
      rcases h1 p hp2 with ⟨z, hz, hz1, hz2⟩
      have hza : z ≠ a := by
        intro hzeq
        exact hu0 (by rw [← hz1, hzeq, hprops.2])
      rcases hmem_back z hz with heq | hin
      · exact absurd heq hza
      · exact ⟨z, by rw [herase]; exact hin, hz1, hz2⟩
    · intro z hz hzu
      rw [herase] at hz
      exact h2 z (hmem_sub z hz) hzu

/-- Deleting every item of user u and resetting the mirror to the empty array
preserves the mirror invariant (m tests exactly ownership by u). -/
theorem mirrorInv_empty_delete {s : CartSt} (u : Nat) (m : CartItem → Bool)
    (hm : ∀ x, m x = true ↔ x.userId = u)
    (hInv : s.MirrorInv) :
    CartSt.MirrorInv (CartSt.emptySet u
      { s with items := s.items.filter (fun x => ! m x) }) := by
  unfold CartSt.emptySet
  intro e he
  simp only [List.mem_map] at he
  rcases he with ⟨e0, he0, rfl⟩
  rcases hInv e0 he0 with ⟨h1, h2⟩
  by_cases hequ : (e0.1 == u) = true
  · rw [if_pos hequ]
    constructor
    · intro p hp2
      cases hp2
    · intro z hz hzu
      simp only [List.mem_filter, Bool.not_eq_true'] at hz
      exact absurd ((hm z).mpr (hzu.trans (beq_iff_eq.mp hequ))) (by simp [hz.2])
  · rw [if_neg hequ]
    have hu0 : e0.1 ≠ u := fun h => hequ (beq_iff_eq.mpr h)
    constructor
    · intro p hp2
      rcases h1 p hp2 with ⟨z, hz, hz1, hz2⟩
      refine ⟨z, ?_, hz1, hz2⟩
      simp only [List.mem_filter, Bool.not_eq_true']
      refine ⟨hz, ?_⟩
      rcases Bool.eq_false_or_eq_true (m z) with htrue | hfalse
      · exact absurd (by rw [← hz1]; exact (hm z).mp htrue) hu0
      · exact hfalse
    · intro z hz hzu
      simp only [List.mem_filter, Bool.not_eq_true'] at hz
      exact h2 z hz.1 hzu

/-- Deleting the items matched by m (all owned by u) and pulling exactly the
deleted product ids from the u mirror set preserves the mirror invariant. -/
theorem mirrorInv_filter_delete {s : CartSt} (u : Nat) (m : CartItem → Bool)
    (hm : ∀ x, m x = true → x.userId = u)
    (hPairs : s.PairsDistinct)
    (hInv : s.MirrorInv) :
    CartSt.MirrorInv (CartSt.pullManyFromSet u
      ((s.items.filter m).map (fun x => x.productId))
      { s with items := s.items.filter (fun x => ! m x) }) := by
  unfold CartSt.pullManyFromSet
  intro e he
  simp only [List.mem_map] at he
  rcases he with ⟨e0, he0, rfl⟩
  rcases hInv e0 he0 with ⟨h1, h2⟩
  by_cases hequ : (e0.1 == u) = true
  · rw [if_pos hequ]
    have hu0 : e0.1 = u := beq_iff_eq.mp hequ
    constructor
    · intro p hp2
      simp only [List.mem_filter, decide_eq_true_eq] at hp2
      rcases h1 p hp2.1 with ⟨z, hz, hz1, hz2⟩
      refine ⟨z, ?_, hz1, hz2⟩
      simp only [List.mem_filter, Bool.not_eq_true']
      refine ⟨hz, ?_⟩
      rcases Bool.eq_false_or_eq_true (m z) with htrue | hfalse
      · exact absurd ⟨z, ⟨hz, htrue⟩, hz2⟩ hp2.2
      · exact hfalse
    · intro z hz hzu
      simp only [List.mem_filter, Bool.not_eq_true'] at hz
      have hzmem := h2 z hz.1 hzu
      simp only [List.mem_filter, decide_eq_true_eq]
      refine ⟨hzmem, ?_⟩
      intro hzp
      rcases hzp with ⟨y, ⟨hy, hym⟩, hyp⟩
      have hyz : y = z := by
        apply CartSt.eq_of_mem_of_pair_eq hPairs hy hz.1
        · rw [hm y hym, hzu, hu0]
        · exact hyp
      rw [hyz] at hym
      exact absurd hym (by simp [hz.2])
  · rw [if_neg hequ]
    have hu0 : e0.1 ≠ u := fun h => hequ (beq_iff_eq.mpr h)
    constructor
    · intro p hp2
      rcases h1 p hp2 with ⟨z, hz, hz1, hz2⟩
      refine ⟨z, ?_, hz1, hz2⟩
      simp only [List.mem_filter, Bool.not_eq_true']
      refine ⟨hz, ?_⟩
      rcases Bool.eq_false_or_eq_true (m z) with htrue | hfalse
      · exact absurd (by rw [← hz1]; exact hm z htrue) hu0
      · exact hfalse
    · intro z hz hzu
      simp only [List.mem_filter, Bool.not_eq_true'] at hz
      exact h2 z hz.1 hzu

/-- C3 amended: every mutating cart operation preserves the invariant that
each user's shopping_cart mirror holds exactly the product ids of that
user's cart line items of any status (the as-stated active-only invariant
fails, see the counterexample: saveForLater and moveToCart flip statuses
without touching the mirror). -/
theorem cartOp_preserves_mirror (op : CartOp) (s : CartSt)
    (hWF : s.WF) (hInv : s.MirrorInv) : (applyCartOp op s).MirrorInv := by
  cases op with
  | add u pid q v =>
    show CartSt.MirrorInv (createCartItem u pid q v s).2
    by_cases hq : 1 ≤ q ∧ q ≤ 100
    · rcases hfp : s.findProduct pid with _ | product
      · simp only [createCartItem, hfp]
        simp [hq]
        exact hInv
      · by_cases hs : product.countInStock < q.toNat
        · simp only [createCartItem, hfp]
          simp [hq, hs]
          exact hInv
        · have hz : ¬ product.countInStock = 0 := by
            have h1 : 1 ≤ q := hq.1
            omega
          rcases hfe : s.findCartByProduct u pid with _ | existing
          · simp only [createCartItem, hfp, hfe]
            simp [hq, hs, hz]
            exact mirrorInv_create rfl rfl hInv
          · by_cases h100 : 100 < existing.quantity + q.toNat
            · simp only [createCartItem, hfp, hfe]
              simp [hq, hs, hz, h100]
              exact hInv
            · by_cases hcap : product.countInStock < existing.quantity + q.toNat
              · simp only [createCartItem, hfp, hfe]
                simp [hq, hs, hz, h100, hcap]
                exact hInv
              · simp only [createCartItem, hfp, hfe]
                simp [hq, hs, hz, h100, hcap]
                exact mirrorInv_save_mem hWF.1
                  (CartSt.mem_of_findCartByProduct hfe) rfl rfl rfl hInv
    · simp [createCartItem, hq]
      exact hInv
  | setQty u iid q =>
    show CartSt.MirrorInv (updateCartItemQuantity u iid q s).2
    by_cases hq0 : q = 0
    · simp [updateCartItemQuantity, hq0]
      exact hInv
    · by_cases hq : 1 ≤ q ∧ q ≤ 100
      · rcases hit : s.findCartItem u iid with _ | cartItem
        · simp only [updateCartItemQuantity, hit]
          simp [hq0, hq]
          exact hInv
        · rcases hfp : s.findProduct cartItem.productId with _ | product
          · simp only [updateCartItemQuantity, hit, hfp]
            simp [hq0, hq]
            exact hInv
          · by_cases heq : cartItem.quantity = q.toNat
            · simp only [updateCartItemQuantity, hit, hfp]
              simp [hq0, hq, heq]
              exact hInv
            · by_cases hz : product.countInStock = 0
              · simp only [updateCartItemQuantity, hit, hfp]
                simp [hq0, hq, heq, hz]
                exact hInv
              · by_cases hs : product.countInStock < q.toNat
                · simp only [updateCartItemQuantity, hit, hfp]
                  simp [hq0, hq, heq, hz, hs]
                  exact hInv
                · simp only [updateCartItemQuantity, hit, hfp]
                  simp [hq0, hq, heq, hz, hs]
                  exact mirrorInv_save_mem hWF.1
                    (CartSt.mem_of_findCartItem hit) rfl rfl rfl hInv
      · simp [updateCartItemQuantity, hq0, hq]
        exact hInv
  | increment u iid =>
    show CartSt.MirrorInv (incrementCartQuantity u iid s).2
    rcases hit : s.findCartItem u iid with _ | cartItem
    · simp [incrementCartQuantity, hit]
      exact hInv
    · by_cases hcap : 100 ≤ cartItem.quantity
      · simp [incrementCartQuantity, hit, hcap]
        exact hInv
      · rcases hfp : s.findProduct cartItem.productId with _ | product
        · simp only [incrementCartQuantity, hit, hfp]
          simp [hcap]
          exact hInv
        · by_cases hs : product.countInStock < cartItem.quantity + 1
          · simp only [incrementCartQuantity, hit, hfp]
            simp [hcap, hs]
            exact hInv
          · simp only [incrementCartQuantity, hit, hfp]
            simp [hcap, hs]
            exact mirrorInv_save_mem hWF.1
              (CartSt.mem_of_findCartItem hit) rfl rfl rfl hInv
  | decrement u iid =>
    show CartSt.MirrorInv (decrementCartQuantity u iid s).2
    rcases hit : s.findCartItem u iid with _ | cartItem
    · simp [decrementCartQuantity, hit]
      exact hInv
    · by_cases hone : cartItem.quantity ≤ 1
      · simp [decrementCartQuantity, hit, hone]
        exact hInv
      · simp [decrementCartQuantity, hit, hone]
        exact mirrorInv_save_mem hWF.1
          (CartSt.mem_of_findCartItem hit) rfl rfl rfl hInv
  | delete u iid =>
    show CartSt.MirrorInv (deleteCartItem u iid s).2
    rcases hit : s.findCartItem u iid with _ | cartItem
    · simp [deleteCartItem, hit]
      exact hInv
    · simp only [deleteCartItem, hit]
      exact mirrorInv_delete hWF hit hInv
  | clear u status =>
    show CartSt.MirrorInv (clearCart u status s).2
    by_cases hempty : (s.items.filter (clearMatches u status)).isEmpty = true
    · simp [clearCart, hempty]
      exact hInv
    · cases status with
      | none =>
        simp only [clearCart]
        simp [hempty]
        exact mirrorInv_empty_delete u (clearMatches u none)
          (fun x => by simp [clearMatches]) hInv
      | some st =>
        simp only [clearCart]
        simp [hempty]
        exact mirrorInv_filter_delete u (clearMatches u (some st))
          (fun x hx => by
            simp only [clearMatches, Bool.and_eq_true, beq_iff_eq] at hx
            exact hx.1)
          hWF.2 hInv
  | batchDelete u ids =>
    show CartSt.MirrorInv (deleteCartItemsBatch u ids s).2
    by_cases hempty : ids.isEmpty = true
    · simp [deleteCartItemsBatch, hempty]
      exact hInv
    · by_cases hsize : 50 < ids.length
      · simp [deleteCartItemsBatch, hempty, hsize]
        exact hInv
      · by_cases hfound : (s.items.filter (batchMatches u ids)).isEmpty = true
        · simp [deleteCartItemsBatch, hempty, hsize, hfound]
          exact hInv
        · simp [deleteCartItemsBatch, hempty, hsize, hfound]
          exact mirrorInv_filter_delete u (batchMatches u ids)
            (fun x hx => by
              simp only [batchMatches, Bool.and_eq_true, beq_iff_eq,
                decide_eq_true_eq] at hx
              exact hx.2)
            hWF.2 hInv
  | save u iid =>
    show CartSt.MirrorInv (saveForLater u iid s).2
    rcases hit : s.findCartItem u iid with _ | cartItem
    · simp [saveForLater, hit]
      exact hInv
    · by_cases hst : cartItem.status = CStatus.savedForLater
      · simp [saveForLater, hit, hst]
        exact hInv
      · simp [saveForLater, hit, hst]
        exact mirrorInv_save_mem hWF.1
          (CartSt.mem_of_findCartItem hit) rfl rfl rfl hInv
  | move u iid =>
    show CartSt.MirrorInv (moveToCart u iid s).2
    rcases hit : s.findCartItem u iid with _ | cartItem
    · simp [moveToCart, hit]
      exact hInv
    · by_cases hst : cartItem.status = CStatus.active
      · simp [moveToCart, hit, hst]
        exact hInv
      · rcases hfp : s.findProduct cartItem.productId with _ | product
        · simp only [moveToCart, hit, hfp]
          simp [hst]
          exact hInv
        · by_cases hz : product.countInStock = 0
          · simp only [moveToCart, hit, hfp]
            simp [hst, hz]
            exact hInv
          · by_cases hs : product.countInStock < cartItem.quantity
            · simp only [moveToCart, hit, hfp]
              simp [hst, hz, hs]
              exact hInv
            · simp only [moveToCart, hit, hfp]
              simp [hst, hz, hs]
              exact mirrorInv_save_mem hWF.1
                (CartSt.mem_of_findCartItem hit) rfl rfl rfl hInv

/-- Witness for the amended C3 theorem: deleting the only line item of user 0
on the sample state keeps the mirror in sync. -/
theorem cartOp_preserves_mirror_witness :
    (applyCartOp (CartOp.delete 0 0) stA).MirrorInv :=
  cartOp_preserves_mirror (CartOp.delete 0 0) stA
    ⟨by simp [CartSt.IdsDistinct, stA], by simp [CartSt.PairsDistinct, stA]⟩
    (by decide)

/-- Counterexample to C3 as stated: the sample state satisfies the
active-items mirror invariant, but saveForLater flips the status of the
only line item without pulling its product id from the shopping_cart
mirror, so afterwards the mirror holds a product id that belongs to no
active line item. -/
theorem saveForLater_breaks_active_mirror :
    stA.ActiveMirrorInv ∧ ¬ (applyCartOp (CartOp.save 0 0) stA).ActiveMirrorInv := by
  constructor
  · decide
  · decide

/-! ## C4 : pagination clamping and defaults -/

/-- Counterexample to C4 as stated: the invalid input limit equal to the
string 200 does not fall back to the default 10 — the validator returns
the clamped 100 together with a range error, and the product-query
handler gate answers 400 instead of proceeding. -/
theorem paginationGate_rejects_out_of_range :
    validatePaginationParams none (some "200") =
      { pageNum := 1, limitNum := 100,
        errors := ["Limit must be between 1 and 100"] } ∧
    paginationGate none (some "200") =
      .badRequest ["Limit must be between 1 and 100"] := by
  exact ⟨rfl, rfl⟩

/-- C4 amended: for every input pair the returned limit lies in [1,100] and
the returned page in [1,∞); non-numeric input (and input parsing to 0,
which is falsy) yields the defaults page 1 and limit 10 with no error, so
the handler proceeds; but numeric out-of-range input produces a non-empty
error list and a 400 from the handler despite the clamped values (see the
counterexample). -/
theorem validatePaginationParams_clamps (page limit : Option String) :
    1 ≤ (validatePaginationParams page limit).pageNum ∧
    1 ≤ (validatePaginationParams page limit).limitNum ∧
    (validatePaginationParams page limit).limitNum ≤ 100 ∧
    ((jsParseIntOpt page = none ∨ jsParseIntOpt page = some 0) →
     (jsParseIntOpt limit = none ∨ jsParseIntOpt limit = some 0) →
     validatePaginationParams page limit =
       { pageNum := 1, limitNum := 10, errors := [] } ∧
     paginationGate page limit = .proceed 1 10) := by
  refine ⟨?_, ?_, ?_, ?_⟩
  · simp only [validatePaginationParams]
    exact le_max_left 1 _
  · simp only [validatePaginationParams]
    exact le_max_left 1 _
  · simp only [validatePaginationParams]
    exact max_le (by norm_num) (min_le_left 100 _)
  · intro hp hl
    have hpage : (match jsParseIntOpt page with
        | some n => if n = 0 then 1 else n
        | none => 1) = (1 : Int) := by
      rcases hp with hp | hp <;> simp [hp]
    have hlimit : (match jsParseIntOpt limit with
        | some n => if n = 0 then 10 else n
        | none => 10) = (10 : Int) := by
      rcases hl with hl | hl <;> simp [hl]
    constructor
    · simp only [validatePaginationParams, hpage, hlimit]
      norm_num
    · simp only [paginationGate, validatePaginationParams, hpage, hlimit]
      norm_num

/-- Witness for C4 on a non-numeric pair: page x9 and an absent limit give
the defaults and the handler proceeds. -/
theorem validatePaginationParams_clamps_witness :
    validatePaginationParams (some "x9") none =
      { pageNum := 1, limitNum := 10, errors := [] } ∧
    paginationGate (some "x9") none = .proceed 1 10 :=
  (validatePaginationParams_clamps (some "x9") none).2.2.2
    (Or.inl (by decide)) (Or.inl rfl)

/-! ## C5 : the min/max price swap -/

/-- Counterexample to C5 as stated: with minPrice 5 and maxPrice 0 the parsed
min exceeds the parsed max, but 0 is falsy so the swap branch is skipped
and the builder emits the inverted range 5 &le; price &le; 0 instead of
the symmetric 0 &le; price &le; 5. -/
theorem jsParseFloat_five : jsParseFloat "5" = JNum.num 5 := by
  show JNum.num (1 * ((((5 : Nat) : ℚ)) + ((0 : Nat) : ℚ) / (10 : ℚ) ^ (0 : Nat))) =
    JNum.num 5
  norm_num

theorem jsParseFloat_zero : jsParseFloat "0" = JNum.num 0 := by
  show JNum.num (1 * ((((0 : Nat) : ℚ)) + ((0 : Nat) : ℚ) / (10 : ℚ) ^ (0 : Nat))) =
    JNum.num 0
  norm_num

theorem jsParseFloat_ten : jsParseFloat "10" = JNum.num 10 := by
  show JNum.num (1 * ((((10 : Nat) : ℚ)) + ((0 : Nat) : ℚ) / (10 : ℚ) ^ (0 : Nat))) =
    JNum.num 10
  norm_num

theorem buildPriceFilter_no_swap_at_zero :
    buildPriceFilter (some "5") (some "0") =
      some { gte := some (JNum.num 5), lte := some (JNum.num 0) } ∧
    buildPriceFilter (some "5") (some "0") ≠
      some { gte := some (JNum.num 0), lte := some (JNum.num 5) } := by
  have h : buildPriceFilter (some "5") (some "0") =
      some { gte := some (JNum.num 5), lte := some (JNum.num 0) } := by
    have h5 : ¬ ("5" : String) = "" := by decide
    have h0 : ¬ ("0" : String) = "" := by decide
    norm_num [buildPriceFilter, truthyStr, jsParseFloat_five, jsParseFloat_zero,
      JNum.truthy, JNum.jsGt, JNum.toQ, JNum.jsGe0, h5, h0]
  refine ⟨h, ?_⟩
  rw [h]
  intro hc
  simp only [Option.some.injEq, PriceFilter.mk.injEq, JNum.num.injEq] at hc
  exact absurd hc.1 (by norm_num)

/-- C5 amended: whenever both price parameters parse to truthy (nonzero)
floats and the parsed min exceeds the parsed max, the builder swaps them,
so the produced constraint is min(a,b) &le; price &le; max(a,b); the
truthiness proviso is necessary, as a parsed 0 on either side skips the
swap (see the counterexample). -/
theorem buildPriceFilter_swaps_truthy (mins maxs : String) (a b : ℚ)
    (hma : jsParseFloat mins = .num a) (hmb : jsParseFloat maxs = .num b)
    (ha : a ≠ 0) (hb : b ≠ 0) (hgt : b < a)
    (hne1 : mins ≠ "") (hne2 : maxs ≠ "") :
    buildPriceFilter (some mins) (some maxs) =
      some { gte := some (JNum.num (min a b)), lte := some (JNum.num (max a b)) } := by
  have hmin : min a b = b := min_eq_right (le_of_lt hgt)
  have hmax : max a b = a := max_eq_left (le_of_lt hgt)
  rw [hmin, hmax]
  simp only [buildPriceFilter, truthyStr]
  rw [if_pos (by simp [hne1]), if_pos hne1, if_pos hne2, hma, hmb]
  rw [if_pos (by simp [JNum.truthy, JNum.jsGt, JNum.toQ, ha, hb, hgt])]

/-- Witness for C5 on the inputs 10 and 5: the produced range is
5 &le; price &le; 10. -/
theorem buildPriceFilter_swaps_truthy_witness :
    buildPriceFilter (some "10") (some "5") =
      some { gte := some (JNum.num (min 10 5)), lte := some (JNum.num (max 10 5)) } :=
  buildPriceFilter_swaps_truthy "10" "5" 10 5 jsParseFloat_ten jsParseFloat_five
    (by norm_num) (by norm_num) (by norm_num) (by decide) (by decide)

/-! ## C8 : comma-separated facet lists -/

/-- A character surviving at the head of a dropWhile is not matched by the
dropped predicate. -/
theorem head?_dropWhile_not (p : Char → Bool) :
    ∀ (l : List Char) {c : Char}, (l.dropWhile p).head? = some c → p c = false
  | [], _, h => by cases h
  | a :: l, c, h => by
    rw [List.dropWhile_cons] at h
    by_cases hpa : p a = true
    · rw [if_pos hpa] at h
      exact head?_dropWhile_not p l h
    · rw [if_neg hpa] at h
      cases h
      exact Bool.eq_false_iff.mpr hpa

/-- A character surviving at the tail end of an rdropWhile is not matched by
the dropped predicate. -/
theorem getLast?_rdropWhile_not (p : Char → Bool) (l : List Char) {c : Char}
    (h : (l.rdropWhile p).getLast? = some c) : p c = false := by
  rw [List.rdropWhile, List.getLast?_reverse] at h
  exact head?_dropWhile_not p l.reverse h

/-- The head of a trimmed character list is not whitespace. -/
theorem head?_trimChars_not {l : List Char} {c : Char}
    (h : (trimChars l).head? = some c) : isJsSpace c = false := by
  unfold trimChars at h
  obtain ⟨t, ht⟩ := List.rdropWhile_prefix isJsSpace (l.dropWhile isJsSpace)
  have hy : (l.dropWhile isJsSpace).head? = some c := by
    rw [← ht, List.head?_append, h]
    rfl
  exact head?_dropWhile_not isJsSpace l hy

/-- The last character of a trimmed character list is not whitespace. -/
theorem getLast?_trimChars_not {l : List Char} {c : Char}
    (h : (trimChars l).getLast? = some c) : isJsSpace c = false :=
  getLast?_rdropWhile_not isJsSpace (l.dropWhile isJsSpace) h

/-- Counterexample to C8 as stated: the facet builder does not de-duplicate —
the input with the value 4GB twice produces a list in which that value
appears twice. -/
theorem parseFacetValues_keeps_duplicates :
    parseFacetValues "4GB,4GB" = [['4', 'G', 'B'], ['4', 'G', 'B']] ∧
    ¬ (parseFacetValues "4GB,4GB").Nodup := by
  constructor
  · rfl
  · decide

/-- C8 amended: every entry of the facet list is trimmed (no leading or
trailing whitespace) and non-empty, but entries are not de-duplicated
(see the counterexample). -/
theorem parseFacetValues_trimmed_nonempty (s : String) :
    ∀ e ∈ parseFacetValues s,
      e ≠ [] ∧
      (∀ c, e.head? = some c → isJsSpace c = false) ∧
      (∀ c, e.getLast? = some c → isJsSpace c = false) := by
  intro e he
  rcases List.mem_filter.mp he with ⟨hmap, hne⟩
  rcases List.mem_map.mp hmap with ⟨x, hx, rfl⟩
  refine ⟨?_, ?_, ?_⟩
  · intro hnil
    rw [hnil] at hne
    cases hne
  · intro c hc
    exact head?_trimChars_not hc
  · intro c hc
    exact getLast?_trimChars_not hc

/-- Witness for C8: the entry 4GB of a spaced two-entry input is non-empty
and trimmed at both ends. -/
theorem parseFacetValues_trimmed_nonempty_witness :
    (['4', 'G', 'B'] : List Char) ≠ [] ∧
    (∀ c, (['4', 'G', 'B'] : List Char).head? = some c → isJsSpace c = false) ∧
    (∀ c, (['4', 'G', 'B'] : List Char).getLast? = some c → isJsSpace c = false) :=
  parseFacetValues_trimmed_nonempty " 4GB , 8GB " ['4', 'G', 'B'] (by decide)

/-! ## C7 : wishlist snapshot sync -/

theorem syncItem_productId (item : WishItem) (product : Product) :
    (syncItem item product).1.productId = item.productId := by
  unfold syncItem
  split
  · rfl
  · rfl

/-- The stored image written by a sync pass is a fixpoint of the image
fallback computation. -/
theorem productImageUrl_fixpoint (item item2 : WishItem) (product : Product)
    (h : item2.productImage = productImageUrl item product) :
    productImageUrl item2 product = item2.productImage := by
  rcases himg : product.images with _ | ⟨url, rest⟩
  · simp only [productImageUrl, himg]
  · simp only [productImageUrl, himg] at h ⊢
    by_cases hu : url ≠ ""
    · rw [if_pos hu] at h ⊢
      exact h.symm
    · rw [if_neg hu]

/-- Running the per-item sync twice against an unchanged product reports no
change the second time, provided the live oldPrice is nonzero (a zero
oldPrice is re-stored as null and re-flagged forever). -/
theorem syncItem_twice (item : WishItem) (product : Product)
    (h0 : product.oldPrice ≠ 0) :
    (syncItem (syncItem item product).1 product).2 = false := by
  by_cases hc : syncHasChanges item product = true
  · have e1 : (syncItem item product).1.productTitle = product.name := by
      simp [syncItem, hc]
    have e2 : (syncItem item product).1.price = product.price := by
      simp [syncItem, hc]
    have e3 : (syncItem item product).1.oldPrice = some product.oldPrice := by
      simp [syncItem, hc, h0]
    have e4 : (syncItem item product).1.discount = product.discount := by
      rcases eq_or_ne product.discount 0 with hd | hd
      · simp [syncItem, hc, hd]
      · simp [syncItem, hc, hd]
    have e5 : (syncItem item product).1.rating = product.rating := by
      rcases eq_or_ne product.rating 0 with hr | hr
      · simp [syncItem, hc, hr]
      · simp [syncItem, hc, hr]
    have e6 : (syncItem item product).1.productImage = productImageUrl item product := by
      simp [syncItem, hc]
    have e7 : productImageUrl (syncItem item product).1 product =
        (syncItem item product).1.productImage :=
      productImageUrl_fixpoint item ((syncItem item product).1) product e6
    have hc2 : syncHasChanges (syncItem item product).1 product = false := by
      simp [syncHasChanges, e1, e2, e3, e4, e5, e7]
    rw [syncItem, hc2]
    simp
  · rw [show (syncItem item product).1 = item from by simp [syncItem, hc]]
    simp only [syncItem, if_neg hc]

/-- A product delivered by the sync lookup out of an all-nonzero-oldPrice
product list has a nonzero oldPrice. -/
theorem lookupProduct_oldPrice_ne {products : List (Nat × Product)} {pid : Nat}
    {p : Product} (hall : ∀ e ∈ products, e.2.oldPrice ≠ 0)
    (h : lookupProduct products pid = some p) : p.oldPrice ≠ 0 := by
  unfold lookupProduct at h
  rcases hfind : products.find? (fun e => e.1 == pid) with _ | e
  · rw [hfind] at h
    cases h
  · rw [hfind, Option.map_some'] at h
    exact (Option.some.inj h) ▸ hall e (List.mem_of_find?_eq_some hfind)

/-- A second full sync pass over an unchanged product list reports zero
updates, provided every listed product has a nonzero oldPrice. -/
theorem syncWishlist_second_pass (products : List (Nat × Product))
    (hall : ∀ e ∈ products, e.2.oldPrice ≠ 0) :
    ∀ items : List WishItem,
      (syncWishlistProducts (syncWishlistProducts items products).1
        products).2.updatedCount = 0
  | [] => rfl
  | item :: rest => by
    have ih := syncWishlist_second_pass products hall rest
    rcases hlk : lookupProduct products item.productId with _ | p
    · simp only [syncWishlistProducts, hlk]
      exact ih
    · have h2 := syncItem_twice item p (lookupProduct_oldPrice_ne hall hlk)
      simp only [syncWishlistProducts, hlk, syncItem_productId]
      simp [h2, ih]

/-- Counterexample to C7 as stated: for a live product whose oldPrice is the
schema default 0 and a snapshot storing null, the snapshot differs from
the live product on the oldPrice field, yet sync does not overwrite it
with the live value 0 (the falsy-coercion stores null again, leaving the
item unchanged), and a second run with no product changes in between
still reports one update — sync never converges on such items. -/
theorem syncWishlist_zero_oldPrice_diverges :
    wishStale.oldPrice ≠ some prodZeroOld.oldPrice ∧
    (syncWishlistProducts [wishStale] [(1, prodZeroOld)]).1 = [wishStale] ∧
    (syncWishlistProducts [wishStale] [(1, prodZeroOld)]).2.updatedCount = 1 ∧
    (syncWishlistProducts
      (syncWishlistProducts [wishStale] [(1, prodZeroOld)]).1
      [(1, prodZeroOld)]).2.updatedCount = 1 := by
  refine ⟨by decide, rfl, rfl, rfl⟩

/-- C7 amended: a wishlist item whose snapshot agrees with the live product
on every synced field (title, price, oldPrice, discount, rating and the
image fallback) is left untouched and not reported; and re-running the
sync reports no updates the second time provided every referenced product
has a nonzero (truthy) oldPrice — for a zero live oldPrice the snapshot
keeps null and is re-reported on every run (see the counterexample). -/
theorem syncWishlistProducts_amended (item : WishItem) (product : Product)
    (items : List WishItem) (products : List (Nat × Product)) :
    (item.productTitle = product.name → item.price = product.price →
     item.oldPrice = some product.oldPrice → item.discount = product.discount →
     item.rating = product.rating → item.productImage = productImageUrl item product →
     syncItem item product = (item, false)) ∧
    (product.oldPrice ≠ 0 → (syncItem (syncItem item product).1 product).2 = false) ∧
    ((∀ e ∈ products, e.2.oldPrice ≠ 0) →
     (syncWishlistProducts (syncWishlistProducts items products).1
       products).2.updatedCount = 0) := by
  refine ⟨?_, ?_, ?_⟩
  · intro ht hp hop hd hr him
    have hc : syncHasChanges item product = false := by
      simp [syncHasChanges, ht, hp, hop, hd, hr, him]
    simp [syncItem, hc]
  · intro h0
    exact syncItem_twice item product h0
  · intro hall
    exact syncWishlist_second_pass products hall items

/-- Witness for C7 on the drifted sample snapshot of a product with truthy
oldPrice: the second sync pass reports no updates. -/
theorem syncWishlistProducts_amended_witness :
    (syncWishlistProducts
      (syncWishlistProducts [wishDrifted] [(2, prodFresh)]).1
      [(2, prodFresh)]).2.updatedCount = 0 :=
  (syncWishlistProducts_amended wishDrifted prodFresh
    [wishDrifted] [(2, prodFresh)]).2.2 (by decide)

end ECommerce
